import Mathlib

/-!
Verification development for the collab-web-editor synchronization core.

Shallow embedding of the two core modules:
  * `src/codemirror-binding.js` — `AutomergeBinding` (editor ↔ CRDT bridge)
  * `src/automerge-sync.js` — `AutomergeSync` (document session manager)

Strings from the JavaScript side (document text, identifiers, inserted
text) are modelled as `List Char`.  JavaScript `undefined`/`null` is
modelled with `Option`.  Thrown errors are modelled with an explicit
error type returned alongside the resulting state.
-/

set_option linter.unusedVariables false

namespace CollabEditor

/-- Errors thrown by the modelled JavaScript code.  Each constructor
corresponds to one `throw new Error(...)` site (or to a failure of the
external CRDT primitive). -/
inductive JsError where
  /-- Thrown as `'Not connected. Call connect() first.'` in `createDocument` / `openDocument`. -/
  | notConnected
  /-- Thrown as `'No document open'` in `applyLocalEdit`. -/
  | noDocumentOpen
  /-- rejection of `repo.find` / `whenReady` in `openDocument`. -/
  | documentLoadFailed
  /-- Thrown as `'Document loaded but has no content'` in `openDocument`. -/
  | malformedDocument
  /-- the CRDT splice primitive rejecting an out-of-range index. -/
  | spliceFailed
  deriving DecidableEq, Repr

/-- The `metadata` record of a document: `{created: timestamp, version: integer}`. -/
structure Metadata where
  created : Nat
  version : Nat
  deriving DecidableEq, Repr

/-- A CRDT document as stored by the backend: `{content, metadata}`.
Either field may be absent (`undefined`) on a malformed document. -/
structure AmDoc where
  content : Option (List Char)
  metadata : Option Metadata
  deriving DecidableEq, Repr

/-- An Automerge document handle: its stable identifier, the current
document value (`handle.doc()`, `none` when unavailable), and the set of
`'change'` listeners currently registered on it (`handle.on` /
`handle.off`), identified by numeric tokens standing for the JS closure
identities. -/
structure DocHandle where
  documentId : List Char
  doc : Option AmDoc
  listeners : List Nat
  deriving DecidableEq, Repr

/-- One element of a patch path: a string key or a numeric index. -/
inductive PatchPathElem where
  | key (s : String)
  | idx (n : Nat)
  deriving DecidableEq, Repr

/-- An Automerge patch as delivered to `'change'` listeners.  `len`
models `patch.length` and `value` models `patch.value`; both may be
absent (`undefined`). -/
structure AmPatch where
  path : List PatchPathElem
  action : String
  len : Option Nat
  value : Option (List Char)
  deriving DecidableEq, Repr

/-- A single CodeMirror change spec `{from, to, insert}`. -/
structure CMChange where
  fromPos : Nat
  toPos : Nat
  insert : List Char
  deriving DecidableEq, Repr

/-- The observable part of the CodeMirror editor state used by the
binding: the full text, and the main selection's anchor and head. -/
structure EditorState where
  text : List Char
  selAnchor : Nat
  selHead : Nat
  deriving DecidableEq, Repr

/-- A call into the Editor Surface's apply-edit interface
(`this.view.dispatch(...)`).  Both forms carry the `isRemoteChange`
annotation in the source. -/
inductive Dispatch where
  /-- The call `view.dispatch({changes, annotations: ...})` from `_handleRemoteChange`. -/
  | remoteEdits (changes : List CMChange)
  /-- The call `view.dispatch({changes: {from, to, insert}, selection: {anchor, head}, annotations: ...})`
      from `_applyFullSync`. -/
  | remoteFullSync (fromPos toPos : Nat) (insert : List Char) (anchor head : Nat)
  deriving DecidableEq, Repr

/-! ## AutomergeBinding (`src/codemirror-binding.js`) -/

/-- The mutable fields of an `AutomergeBinding` instance, together with
the `'change'`-listener registrations on its handle (the part of the
shared handle this binding observes and mutates via `on`/`off`).
`nextHandlerId` supplies a fresh token for each closure created by
`attach`. -/
structure BindingState where
  isSyncingLocalChange : Bool
  changeHandler : Option Nat
  attached : Bool
  handleListeners : List Nat
  nextHandlerId : Nat
  deriving DecidableEq, Repr

/-- The constructor state of `AutomergeBinding`:
`this._isSyncingLocalChange = false; this._changeHandler = null; this._attached = false;`. -/
def BindingState.init : BindingState :=
  { isSyncingLocalChange := false
    changeHandler := none
    attached := false
    handleListeners := []
    nextHandlerId := 0 }

/-- Model of `AutomergeBinding.attach`: no-op when already attached; otherwise
registers a fresh change handler on the handle and marks the binding
attached. -/
def attach (st : BindingState) : BindingState :=
  if st.attached then st
  else
    { st with
      changeHandler := some st.nextHandlerId
      handleListeners := st.handleListeners ++ [st.nextHandlerId]
      nextHandlerId := st.nextHandlerId + 1
      attached := true }

/-- Model of `AutomergeBinding.detach`: no-op when not attached; otherwise
removes the registered change handler from the handle (`handle.off`),
clears it, and marks the binding detached. -/
def detach (st : BindingState) : BindingState :=
  if st.attached = false then st
  else
    match st.changeHandler with
    | some hid =>
        { st with
          handleListeners := st.handleListeners.filter (fun l => l ≠ hid)
          changeHandler := none
          attached := false }
    | none => { st with attached := false }

/-- The body of the patch loop in `_handleRemoteChange`: a patch whose
`path[0]` is not `'content'` is skipped; a `'splice'` patch on the
content path yields `{from: index, to: index + deleteCount, insert}`
where `index` is `path[1]` when it is a number and `0` otherwise,
`deleteCount` is `patch.length || 0` and `insert` is `patch.value || ''`;
any other action on the content path yields nothing. -/
def translatePatch (p : AmPatch) : Option CMChange :=
  if p.path.head? = some (PatchPathElem.key "content") then
    if p.action = "splice" then
      let index := match p.path[1]? with
        | some (PatchPathElem.idx n) => n
        | _ => 0
      some { fromPos := index
             toPos := index + p.len.getD 0
             insert := p.value.getD [] }
    else none
  else none

/-- Model of `AutomergeBinding._applyFullSync`: if the document text differs from
the editor text, replace the whole editor range in one remote-tagged
dispatch, restoring the selection anchor and head clamped
(`Math.min`) to the new text's length; otherwise do nothing. -/
def applyFullSync (ed : EditorState) (content : List Char) : List Dispatch :=
  if content ≠ ed.text then
    [Dispatch.remoteFullSync 0 ed.text.length content
      (min ed.selAnchor content.length) (min ed.selHead content.length)]
  else []

/-- Model of `AutomergeBinding._handleRemoteChange doc patches`, returning the
list of Editor Surface dispatches it performs.  Guard set ⇒ discard;
missing doc or missing `doc.content` ⇒ warn and discard; non-empty
patches translating to at least one content change ⇒ one batched
remote-tagged dispatch; otherwise fall back to `_applyFullSync`. -/
def handleRemoteChange (st : BindingState) (ed : EditorState)
    (doc : Option AmDoc) (patches : List AmPatch) : List Dispatch :=
  if st.isSyncingLocalChange then []
  else
    match doc with
    | none => []
    | some d =>
      match d.content with
      | none => []
      | some content =>
        if 0 < patches.length then
          let changes := patches.filterMap translatePatch
          if 0 < changes.length then [Dispatch.remoteEdits changes]
          else applyFullSync ed content
        else applyFullSync ed content

/-- One entry of `update.changes.iterChanges`: a contiguous changed
range `(fromA, toA, fromB, toB, inserted)` in the editor update. -/
structure EditorChange where
  fromA : Nat
  toA : Nat
  fromB : Nat
  toB : Nat
  inserted : List Char
  deriving DecidableEq, Repr

/-- The fields of a CodeMirror `ViewUpdate` read by `applyLocalChange`:
whether some transaction carries the `isRemoteChange` tag, whether the
document changed, and the ordered changed ranges. -/
structure ViewUpdate where
  hasRemoteTag : Bool
  docChanged : Bool
  changes : List EditorChange
  deriving DecidableEq, Repr

/-- Outcome of `applyLocalChange`: the returned boolean or thrown error,
the binding state on exit, and every dispatch produced by the change
events the handle fired synchronously during the call (the echoes). -/
structure LocalChangeOutcome where
  result : Except JsError Bool
  state : BindingState
  echoDispatches : List Dispatch
  deriving Repr

/-- The `iterChanges` loop of `applyLocalChange`, run in binding state
`st`: each range is forwarded to the document via
`handle.change(d => splice(d, ['content'], fromA, toA - fromA, inserted))`,
modelled by the environment `fwd` (which may throw).  A successful
forward makes the handle fire its `'change'` event synchronously with
the payload given by `echo`; when the binding is attached its handler
runs `_handleRemoteChange` in the current state.  A throw aborts the
remaining ranges. -/
def iterLocalChanges (st : BindingState) (ed : EditorState)
    (fwd : EditorChange → Except JsError Unit)
    (echo : EditorChange → Option AmDoc × List AmPatch) :
    List EditorChange → Except JsError Unit × List Dispatch
  | [] => (Except.ok (), [])
  | c :: rest =>
    match fwd c with
    | Except.error e => (Except.error e, [])
    | Except.ok _ =>
      let ds :=
        if st.attached then handleRemoteChange st ed (echo c).1 (echo c).2
        else []
      let tail := iterLocalChanges st ed fwd echo rest
      (tail.1, ds ++ tail.2)

/-- Model of `AutomergeBinding.applyLocalChange update`: return `false` on a
remote-tagged or document-unchanged update; otherwise set the
re-entrancy guard, forward every changed range in order, and clear the
guard in a `finally` (so it is cleared on the throwing path too). -/
def applyLocalChange (st : BindingState) (ed : EditorState)
    (fwd : EditorChange → Except JsError Unit)
    (echo : EditorChange → Option AmDoc × List AmPatch)
    (update : ViewUpdate) : LocalChangeOutcome :=
  if update.hasRemoteTag then ⟨Except.ok false, st, []⟩
  else if update.docChanged = false then ⟨Except.ok false, st, []⟩
  else
    let stSync := { st with isSyncingLocalChange := true }
    let run := iterLocalChanges stSync ed fwd echo update.changes
    { result := match run.1 with
        | Except.ok _ => Except.ok true
        | Except.error e => Except.error e
      state := { stSync with isSyncingLocalChange := false }
      echoDispatches := run.2 }

/-! ## AutomergeSync (`src/automerge-sync.js`) -/

/-- Events emitted by `AutomergeSync` (its `EventEmitter` base).
`documentReady` carries the content snapshot (`handle.doc()`), the
handle's identifier and the `isNew` flag; `remoteChange` carries the
payload of the handle's `'change'` event; `errorEv` carries the
`context` string of an `error` event. -/
inductive SyncEvent where
  | connected
  | disconnected
  | documentReady (doc : Option AmDoc) (handleId : List Char) (isNew : Bool)
  | documentClosed
  | remoteChange (doc : Option AmDoc)
  | errorEv (context : String)
  deriving DecidableEq, Repr

/-- The mutable fields of an `AutomergeSync` instance.  `repo` is true
when `this.repo` is non-null.  `events` is the trace of emitted events,
`closed` the trace of handles the session has detached from (the JS
objects outlive the session's reference to them), and `nextHandlerId`
supplies fresh tokens for the closures created by
`_setupChangeHandler`.  `urlDoc` models the `?doc=` parameter written by
`window.history.replaceState`. -/
structure SyncState where
  repo : Bool
  handle : Option DocHandle
  documentId : Option (List Char)
  isConnected : Bool
  changeHandler : Option Nat
  nextHandlerId : Nat
  urlDoc : Option (List Char)
  events : List SyncEvent
  closed : List DocHandle
  deriving DecidableEq, Repr

/-- Model of `startsWith` on character lists, modelling
`documentId.startsWith('automerge:')`. -/
def strStartsWith : List Char → List Char → Bool
  | [], _ => true
  | _ :: _, [] => false
  | a :: ps, b :: cs => a == b && strStartsWith ps cs

/-- The characters of the `'automerge:'` URL scheme tag. -/
def amScheme : List Char := "automerge:".toList

/-- The identifier normalization inside `openDocument`:
`documentId.startsWith('automerge:') ? documentId : 'automerge:' + documentId`. -/
def normalizeDocId (documentId : List Char) : List Char :=
  if strStartsWith amScheme documentId then documentId
  else amScheme ++ documentId

/-- Modelled from the spec: the external CRDT engine's splice primitive
(`Automerge.splice(d, ['content'], index, deleteCount, insertText)`),
whose source is not part of this repository.  §6 of the spec defines it
as "replace a contiguous range with new content": walk to `index`, drop
`deleteCount` characters, put `ins` in their place. -/
def spliceChars : Nat → Nat → List Char → List Char → List Char
  | 0, d, ins, cs => ins ++ cs.drop d
  | _ + 1, _, ins, [] => ins
  | p + 1, d, ins, c :: cs => c :: spliceChars p d ins cs

/-- Modelled from the spec: `handle.change(d => Automerge.splice(d,
['content'], position, deleteCount, insertText))` applied to the
document value.  The primitive rejects a splice on a missing `content`
field or an index beyond the text's end; a throwing mutator leaves the
document unchanged. -/
def docSplice (d : AmDoc) (position deleteCount : Nat) (insertText : List Char) :
    Except JsError AmDoc :=
  match d.content with
  | none => Except.error JsError.spliceFailed
  | some cs =>
    if position ≤ cs.length then
      Except.ok { d with content := some (spliceChars position deleteCount insertText cs) }
    else Except.error JsError.spliceFailed

/-- Model of `AutomergeSync._setupChangeHandler`: create a fresh change-handler
closure, remember it, and register it on the active handle. -/
def setupChangeHandler (st : SyncState) (h : DocHandle) : SyncState × DocHandle :=
  let hid := st.nextHandlerId
  ({ st with changeHandler := some hid, nextHandlerId := st.nextHandlerId + 1 },
   { h with listeners := h.listeners ++ [hid] })

/-- Model of `AutomergeSync.connect`: no-op when `this.repo` is already set;
otherwise construct the repo, mark connected and emit `'connected'`. -/
def connect (st : SyncState) : SyncState :=
  if st.repo then st
  else
    { st with
      repo := true
      isConnected := true
      events := st.events ++ [SyncEvent.connected] }

/-- Model of `AutomergeSync.closeDocument`: no-op without a handle; otherwise
unregister the remembered change handler from the handle, drop the
handle and document id, and emit `'document-closed'`.  The detached
handle is recorded in the `closed` trace. -/
def closeDocument (st : SyncState) : SyncState :=
  match st.handle with
  | none => st
  | some h =>
    let h' := match st.changeHandler with
      | some hid => { h with listeners := h.listeners.filter (fun l => l ≠ hid) }
      | none => h
    { st with
      handle := none
      documentId := none
      changeHandler := none
      closed := st.closed ++ [h']
      events := st.events ++ [SyncEvent.documentClosed] }

/-- Model of `AutomergeSync.disconnect`: close any open document, null the repo,
mark disconnected and emit `'disconnected'`. -/
def disconnect (st : SyncState) : SyncState :=
  let st := if st.handle.isSome then closeDocument st else st
  { st with
    repo := false
    isConnected := false
    events := st.events ++ [SyncEvent.disconnected] }

/-- Model of `AutomergeSync.createDocument`: throw when not connected; otherwise
create a fresh handle (`repo.create()`, identifier `freshId`),
initialize `content = ""` and `metadata = {created: now, version: 1}`,
make it the active document, register the change handler, rewrite the
URL's `?doc=` parameter, emit `'document-ready'` with
`{doc, handle, isNew: true}`, and return the new document id. -/
def createDocument (st : SyncState) (now : Nat) (freshId : List Char) :
    SyncState × Except JsError (List Char) :=
  if st.repo = false then (st, Except.error JsError.notConnected)
  else
    let d : AmDoc :=
      { content := some []
        metadata := some { created := now, version := 1 } }
    let h : DocHandle := { documentId := freshId, doc := some d, listeners := [] }
    let su := setupChangeHandler { st with handle := some h, documentId := some freshId } h
    let h' := su.2
    ({ su.1 with
        handle := some h'
        urlDoc := some freshId
        events := su.1.events ++ [SyncEvent.documentReady h'.doc freshId true] },
     Except.ok freshId)

/-- Model of `AutomergeSync.openDocument documentId`, with the backend's
`repo.find`/`whenReady` modelled by the environment `resolve` (returning
`none` when resolution fails or never becomes ready).  Throws when not
connected; closes any active document first; normalizes the identifier;
on resolution failure or a loaded document with no usable value, emits
an `'error'` event and rethrows; on success registers the change
handler and emits `'document-ready'` with `{doc, handle, isNew: false}`. -/
def openDocument (st : SyncState) (resolve : List Char → Option DocHandle)
    (documentId : List Char) : SyncState × Except JsError Unit :=
  if st.repo = false then (st, Except.error JsError.notConnected)
  else
    let st := if st.handle.isSome then closeDocument st else st
    let fullDocId := normalizeDocId documentId
    match resolve fullDocId with
    | none =>
      ({ st with events := st.events ++ [SyncEvent.errorEv "openDocument"] },
       Except.error JsError.documentLoadFailed)
    | some h =>
      match h.doc with
      | none =>
        ({ st with events := st.events ++ [SyncEvent.errorEv "openDocument"] },
         Except.error JsError.malformedDocument)
      | some _ =>
        let su := setupChangeHandler { st with handle := some h, documentId := some h.documentId } h
        let h' := su.2
        ({ su.1 with
            handle := some h'
            events := su.1.events ++ [SyncEvent.documentReady h.doc h.documentId false] },
         Except.ok ())

/-- Model of `AutomergeSync.applyLocalEdit position deleteCount insertText`:
throw when no document is open; otherwise mutate the active document
with the CRDT splice primitive.  A successful `handle.change` fires the
handle's `'change'` listeners; when the session's own handler is among
them it emits `'remote-change'` with the new document value. -/
def applyLocalEdit (st : SyncState) (position deleteCount : Nat)
    (insertText : List Char) : SyncState × Except JsError Unit :=
  match st.handle with
  | none => (st, Except.error JsError.noDocumentOpen)
  | some h =>
    match h.doc with
    | none => (st, Except.error JsError.spliceFailed)
    | some d =>
      match docSplice d position deleteCount insertText with
      | Except.error e => (st, Except.error e)
      | Except.ok d' =>
        let h' := { h with doc := some d' }
        let fired :=
          match st.changeHandler with
          | some hid =>
            if h'.listeners.contains hid then [SyncEvent.remoteChange (some d')] else []
          | none => []
        ({ st with handle := some h', events := st.events ++ fired }, Except.ok ())

/-- Model of `AutomergeSync.getContent`: `''` without a handle, `''` when the
document value or its `content` field is unavailable, otherwise the
current text. -/
def getContent (st : SyncState) : List Char :=
  match st.handle with
  | none => []
  | some h =>
    match h.doc with
    | none => []
    | some d =>
      match d.content with
      | none => []
      | some cs => cs

/-- The create-then-open scenario of the mutual-exclusivity property:
`createDocument()` followed by `openDocument(x)` on the same session. -/
def createThenOpen (st : SyncState) (now : Nat) (freshId : List Char)
    (resolve : List Char → Option DocHandle) (x : List Char) :
    SyncState × Except JsError Unit :=
  openDocument (createDocument st now freshId).1 resolve x

/-! ## Helper lemmas -/

/-- With the re-entrancy guard set, `_handleRemoteChange` dispatches nothing. -/
theorem handleRemoteChange_guarded (st : BindingState) (ed : EditorState)
    (doc : Option AmDoc) (patches : List AmPatch)
    (hg : st.isSyncingLocalChange = true) :
    handleRemoteChange st ed doc patches = [] := by
  simp [handleRemoteChange, hg]

/-- Every echo fired during the local-edit loop is discarded while the
loop's state has the guard set. -/
theorem iterLocalChanges_echo_nil (st : BindingState) (ed : EditorState)
    (fwd : EditorChange → Except JsError Unit)
    (echo : EditorChange → Option AmDoc × List AmPatch)
    (l : List EditorChange) (hg : st.isSyncingLocalChange = true) :
    (iterLocalChanges st ed fwd echo l).2 = [] := by
  induction l with
  | nil => rfl
  | cons c rest ih =>
    simp only [iterLocalChanges]
    cases fwd c with
    | error e => rfl
    | ok _ =>
      simp [handleRemoteChange_guarded st ed _ _ hg, ih]

/-- A patch whose path does not start at the `content` key translates to
no editor change. -/
theorem translatePatch_non_content (p : AmPatch)
    (hp : p.path.head? ≠ some (PatchPathElem.key "content")) :
    translatePatch p = none := by
  simp [translatePatch, hp]

/-- Unfolding lemma: detaching leaves the attached flag cleared. -/
theorem detach_not_attached (st : BindingState) : (detach st).attached = false := by
  unfold detach
  by_cases h : st.attached
  · simp [h]
    cases st.changeHandler <;> rfl
  · simp at h
    simp [h]

/-- Detaching an already-detached binding is the identity. -/
theorem detach_of_detached (st : BindingState) (h : st.attached = false) :
    detach st = st := by
  simp [detach, h]

/-- A character-list is a `startsWith`-witness of itself followed by
anything. -/
theorem strStartsWith_append (p s : List Char) :
    strStartsWith p (p ++ s) = true := by
  induction p with
  | nil => rfl
  | cons a ps ih => simp [strStartsWith, ih]

/-- Evaluation of `spliceChars` on an in-range index is take/insert/drop. -/
theorem spliceChars_eq (p d : Nat) (ins cs : List Char) (hp : p ≤ cs.length) :
    spliceChars p d ins cs = cs.take p ++ ins ++ cs.drop (p + d) := by
  induction cs generalizing p with
  | nil =>
    have : p = 0 := Nat.le_zero.mp hp
    subst this
    simp [spliceChars]
  | cons c cs ih =>
    cases p with
    | zero => simp [spliceChars]
    | succ p =>
      have hp' : p ≤ cs.length := Nat.le_of_succ_le_succ hp
      simp [spliceChars, ih p hp', Nat.succ_add]

/-! ## Claim theorems -/

/-- Claim C1 (echo suppression): for every local edit forwarded to the
document via `applyLocalChange` while the binding is attached, the
document change event fired synchronously as a consequence of that same
edit is discarded by `_handleRemoteChange` (the re-entrancy guard is
set) and produces no call into the Editor Surface's dispatch
interface — whatever payload the echo carries and wherever in the range
list it fires. -/
theorem echo_suppression (st : BindingState) (ed : EditorState)
    (fwd : EditorChange → Except JsError Unit)
    (echo : EditorChange → Option AmDoc × List AmPatch)
    (update : ViewUpdate) (hatt : st.attached = true) :
    (applyLocalChange st ed fwd echo update).echoDispatches = [] := by
  unfold applyLocalChange
  by_cases h1 : update.hasRemoteTag
  · simp [h1]
  · by_cases h2 : update.docChanged
    · simp only [h1, h2, if_false, if_true, Bool.not_eq_false]
      simp only [Bool.false_eq_true, if_false, reduceIte]
      apply iterLocalChanges_echo_nil
      rfl
    · simp at h2
      simp [h1, h2]

/-- Witness for C1 at a concrete attached binding and a one-range
update whose echo carries a genuine content patch. -/
theorem echo_suppression_witness :
    (attach BindingState.init).attached = true ∧
    (applyLocalChange (attach BindingState.init) ⟨"hi".toList, 0, 0⟩
      (fun _ => Except.ok ())
      (fun _ => (some ⟨some "xhi".toList, none⟩,
                 [⟨[PatchPathElem.key "content", PatchPathElem.idx 0],
                   "splice", some 0, some "x".toList⟩]))
      ⟨false, true, [⟨0, 0, 0, 1, "x".toList⟩]⟩).echoDispatches = [] :=
  ⟨rfl, echo_suppression _ _ _ _ _ rfl⟩

/-- Claim C3 (patch translation correctness): a remote patch
`{path: ['content', i], action: 'splice', length: d, value: s}`
translates to exactly the editor edit `{from: i, to: i + d, insert: s}`,
and `_handleRemoteChange` with the guard clear dispatches exactly that
edit for it. -/
theorem patch_translation (st : BindingState) (ed : EditorState) (d : AmDoc)
    (c : List Char) (i del : Nat) (s : List Char)
    (hg : st.isSyncingLocalChange = false) (hc : d.content = some c) :
    translatePatch
      { path := [PatchPathElem.key "content", PatchPathElem.idx i]
        action := "splice", len := some del, value := some s }
      = some { fromPos := i, toPos := i + del, insert := s } ∧
    handleRemoteChange st ed (some d)
      [{ path := [PatchPathElem.key "content", PatchPathElem.idx i]
         action := "splice", len := some del, value := some s }]
      = [Dispatch.remoteEdits [{ fromPos := i, toPos := i + del, insert := s }]] := by
  constructor
  · simp [translatePatch]
  · simp [handleRemoteChange, hg, hc, translatePatch, List.filterMap]

/-- Witness for C3 at guard-clear state, content `"hello"`, patch
`{path: ['content', 2], action: 'splice', length: 1, value: "ab"}`. -/
theorem patch_translation_witness :
    BindingState.init.isSyncingLocalChange = false ∧
    (⟨some "hello".toList, none⟩ : AmDoc).content = some "hello".toList ∧
    handleRemoteChange BindingState.init ⟨"hello".toList, 0, 0⟩
      (some ⟨some "hello".toList, none⟩)
      [{ path := [PatchPathElem.key "content", PatchPathElem.idx 2]
         action := "splice", len := some 1, value := some "ab".toList }]
      = [Dispatch.remoteEdits [{ fromPos := 2, toPos := 3, insert := "ab".toList }]] :=
  ⟨rfl, rfl,
    (patch_translation BindingState.init ⟨"hello".toList, 0, 0⟩
      ⟨some "hello".toList, none⟩ "hello".toList 2 1 "ab".toList rfl rfl).2⟩

/-- Claim C4 (re-entrancy guard release on failure): every call to
`applyLocalChange` that passes the remote-tag and doc-changed checks —
and therefore sets the re-entrancy guard — exits with the guard clear
again, whether the forwarding of the TextOperations succeeded or threw. -/
theorem guard_released (st : BindingState) (ed : EditorState)
    (fwd : EditorChange → Except JsError Unit)
    (echo : EditorChange → Option AmDoc × List AmPatch)
    (update : ViewUpdate)
    (h1 : update.hasRemoteTag = false) (h2 : update.docChanged = true) :
    (applyLocalChange st ed fwd echo update).state.isSyncingLocalChange = false := by
  simp [applyLocalChange, h1, h2]

/-- Witness for C4 on an update whose very first forwarded operation
throws: the call reports the error yet the guard is clear. -/
theorem guard_released_witness :
    (⟨false, true, [⟨0, 1, 0, 0, []⟩]⟩ : ViewUpdate).hasRemoteTag = false ∧
    (⟨false, true, [⟨0, 1, 0, 0, []⟩]⟩ : ViewUpdate).docChanged = true ∧
    (applyLocalChange (attach BindingState.init) ⟨"a".toList, 0, 0⟩
      (fun _ => Except.error JsError.spliceFailed) (fun _ => (none, []))
      ⟨false, true, [⟨0, 1, 0, 0, []⟩]⟩).state.isSyncingLocalChange = false :=
  ⟨rfl, rfl, guard_released _ _ _ _ _ rfl rfl⟩

/-- Claim C6 (fallback full-sync selection clamping): whenever the
fallback reconciliation sees a new text differing from the editor's
text, its single dispatch carries the previous anchor and head each
clamped with `min` to the new text's length, so both are at most that
length. -/
theorem fullsync_clamps (ed : EditorState) (newText : List Char)
    (hne : newText ≠ ed.text) :
    applyFullSync ed newText =
      [Dispatch.remoteFullSync 0 ed.text.length newText
        (min ed.selAnchor newText.length) (min ed.selHead newText.length)] ∧
    min ed.selAnchor newText.length ≤ newText.length ∧
    min ed.selHead newText.length ≤ newText.length :=
  ⟨by simp [applyFullSync, hne], Nat.min_le_right _ _, Nat.min_le_right _ _⟩

/-- Witness for C6 at the spec's instance: old text of length 10 with
anchor/head 8/10, new text of length 5 — both restored positions are 5,
hence at most 5. -/
theorem fullsync_clamps_witness :
    "01234".toList ≠ ("0123456789".toList) ∧
    applyFullSync ⟨"0123456789".toList, 8, 10⟩ "01234".toList =
      [Dispatch.remoteFullSync 0 10 "01234".toList 5 5] ∧
    (5 : Nat) ≤ 5 :=
  ⟨by decide,
   by
    have h := (fullsync_clamps ⟨"0123456789".toList, 8, 10⟩ "01234".toList (by decide)).1
    simpa using h,
   Nat.le.refl⟩

/-- Claim C8 (non-content patches produce no edits): with the guard
clear, a non-empty patch list in which every patch addresses the
`metadata` key — the document content therefore matching the editor
text — makes `_handleRemoteChange` dispatch nothing at all. -/
theorem metadata_patches_no_edits (st : BindingState) (ed : EditorState)
    (d : AmDoc) (patches : List AmPatch)
    (hg : st.isSyncingLocalChange = false)
    (hne : patches ≠ [])
    (hmeta : ∀ p ∈ patches, p.path.head? = some (PatchPathElem.key "metadata"))
    (hc : d.content = some ed.text) :
    handleRemoteChange st ed (some d) patches = [] := by
  have hnone : ∀ p ∈ patches, translatePatch p = none := by
    intro p hp
    apply translatePatch_non_content
    rw [hmeta p hp]
    simp
  have hfm : patches.filterMap translatePatch = [] := by
    simp [List.filterMap_eq_nil_iff]
    exact hnone
  have hlen : 0 < patches.length := List.length_pos.mpr hne
  simp [handleRemoteChange, hg, hc, hfm, hlen, applyFullSync]

/-- Witness for C8 on a singleton metadata patch against matching
content. -/
theorem metadata_patches_no_edits_witness :
    BindingState.init.isSyncingLocalChange = false ∧
    ([{ path := [PatchPathElem.key "metadata"], action := "put",
        len := none, value := none }] : List AmPatch) ≠ [] ∧
    handleRemoteChange BindingState.init ⟨"same".toList, 1, 1⟩
      (some ⟨some "same".toList, some ⟨7, 1⟩⟩)
      [{ path := [PatchPathElem.key "metadata"], action := "put",
         len := none, value := none }] = [] :=
  ⟨rfl, by decide,
   metadata_patches_no_edits BindingState.init ⟨"same".toList, 1, 1⟩
     ⟨some "same".toList, some ⟨7, 1⟩⟩ _ rfl (by decide)
     (by intro p hp; simp at hp; subst hp; rfl) rfl⟩

/-- Claim C9 (idempotence of detach): detaching twice is the same as
detaching once, a detach always ends not attached, and detaching the
freshly-constructed binding throws nothing and leaves it exactly in the
constructor's Detached state (not attached, no change handler). -/
theorem detach_idempotent (st : BindingState) :
    detach (detach st) = detach st ∧
    (detach st).attached = false ∧
    detach BindingState.init = BindingState.init ∧
    BindingState.init.attached = false ∧
    BindingState.init.changeHandler = none :=
  ⟨detach_of_detached _ (detach_not_attached st),
   detach_not_attached st,
   detach_of_detached _ rfl, rfl, rfl⟩

/-- Claim C2 (round-trip fidelity): on a document whose content is `C`,
`applyLocalEdit p del s` with `p + del ≤ length C` succeeds, and
`getContent()` then yields `C[0:p] + s + C[p+del:]`. -/
theorem roundtrip (st : SyncState) (h : DocHandle) (d : AmDoc)
    (C s : List Char) (p del : Nat)
    (hh : st.handle = some h) (hd : h.doc = some d) (hc : d.content = some C)
    (hb : p + del ≤ C.length) :
    (applyLocalEdit st p del s).2 = Except.ok () ∧
    getContent (applyLocalEdit st p del s).1 = C.take p ++ s ++ C.drop (p + del) := by
  have hp : p ≤ C.length := Nat.le_trans (Nat.le_add_right p del) hb
  have hsplice : docSplice d p del s =
      Except.ok { d with content := some (spliceChars p del s C) } := by
    simp [docSplice, hc, hp]
  constructor
  · simp [applyLocalEdit, hh, hd, hsplice]
  · simp [applyLocalEdit, hh, hd, hsplice, getContent, spliceChars_eq p del s C hp]

/-- Witness for C2: content `"hello"`, `applyLocalEdit(1, 2, "XY")`,
then `getContent()` reads `"hXYlo"`. -/
theorem roundtrip_witness :
    (⟨true, some ⟨"d".toList, some ⟨some "hello".toList, none⟩, []⟩,
      some "d".toList, true, none, 0, none, [], []⟩ : SyncState).handle
        = some ⟨"d".toList, some ⟨some "hello".toList, none⟩, []⟩ ∧
    (1 + 2 : Nat) ≤ ("hello".toList).length ∧
    (applyLocalEdit ⟨true, some ⟨"d".toList, some ⟨some "hello".toList, none⟩, []⟩,
        some "d".toList, true, none, 0, none, [], []⟩ 1 2 "XY".toList).2 = Except.ok () ∧
    getContent (applyLocalEdit ⟨true, some ⟨"d".toList, some ⟨some "hello".toList, none⟩, []⟩,
        some "d".toList, true, none, 0, none, [], []⟩ 1 2 "XY".toList).1 = "hXYlo".toList :=
  ⟨rfl, by decide,
   (roundtrip _ _ _ "hello".toList "XY".toList 1 2 rfl rfl rfl (by decide)).1,
   by decide⟩

/-- Claim C5 (mutual exclusivity of create/open): `createDocument()`
followed by `openDocument(x)` — with `x` resolvable — succeeds and ends
with exactly the resolved document active (the session subscribed to
it), and with the created document's handle detached from the session:
it survives in the `closed` trace with its listener list empty, so no
further events from it reach the session. -/
theorem create_then_open_exclusive (st0 : SyncState) (now : Nat)
    (freshId x : List Char) (resolve : List Char → Option DocHandle)
    (hX : DocHandle) (dX : AmDoc)
    (hconn : st0.repo = true) (hnodoc : st0.handle = none)
    (hres : resolve (normalizeDocId x) = some hX) (hdoc : hX.doc = some dX) :
    (createThenOpen st0 now freshId resolve x).2 = Except.ok () ∧
    (createThenOpen st0 now freshId resolve x).1.handle =
      some { hX with listeners := hX.listeners ++ [st0.nextHandlerId + 1] } ∧
    (createThenOpen st0 now freshId resolve x).1.documentId = some hX.documentId ∧
    (createThenOpen st0 now freshId resolve x).1.closed =
      st0.closed ++ [{ documentId := freshId
                       doc := some { content := some []
                                     metadata := some { created := now, version := 1 } }
                       listeners := [] }] := by
  refine ⟨?_, ?_, ?_, ?_⟩ <;>
    simp [createThenOpen, createDocument, openDocument, closeDocument,
      setupChangeHandler, hconn, hnodoc, hres, hdoc]

/-- Witness for C5: a fresh connected session creates a document, then
opens `"xdoc"` resolving to a backend handle; the opened document is the
only active one and the created handle's subscription is gone. -/
theorem create_then_open_exclusive_witness :
    (fun s => if s = "automerge:xdoc".toList
        then some (⟨"automerge:xdoc".toList, some ⟨some "hi".toList, none⟩, []⟩ : DocHandle)
        else none) (normalizeDocId "xdoc".toList)
      = some ⟨"automerge:xdoc".toList, some ⟨some "hi".toList, none⟩, []⟩ ∧
    (createThenOpen ⟨true, none, none, true, none, 0, none, [], []⟩ 42 "new".toList
      (fun s => if s = "automerge:xdoc".toList
        then some ⟨"automerge:xdoc".toList, some ⟨some "hi".toList, none⟩, []⟩
        else none) "xdoc".toList).2 = Except.ok () ∧
    (createThenOpen ⟨true, none, none, true, none, 0, none, [], []⟩ 42 "new".toList
      (fun s => if s = "automerge:xdoc".toList
        then some ⟨"automerge:xdoc".toList, some ⟨some "hi".toList, none⟩, []⟩
        else none) "xdoc".toList).1.closed =
      [⟨"new".toList, some ⟨some [], some ⟨42, 1⟩⟩, []⟩] :=
  ⟨by decide,
   (create_then_open_exclusive
      (⟨true, none, none, true, none, 0, none, [], []⟩ : SyncState) 42 "new".toList
      "xdoc".toList
      (fun s => if s = "automerge:xdoc".toList
        then some ⟨"automerge:xdoc".toList, some ⟨some "hi".toList, none⟩, []⟩
        else none)
      ⟨"automerge:xdoc".toList, some ⟨some "hi".toList, none⟩, []⟩
      ⟨some "hi".toList, none⟩ rfl rfl (by decide) rfl).1,
   by
    have h := (create_then_open_exclusive
      (⟨true, none, none, true, none, 0, none, [], []⟩ : SyncState) 42 "new".toList
      "xdoc".toList
      (fun s => if s = "automerge:xdoc".toList
        then some ⟨"automerge:xdoc".toList, some ⟨some "hi".toList, none⟩, []⟩
        else none)
      ⟨"automerge:xdoc".toList, some ⟨some "hi".toList, none⟩, []⟩
      ⟨some "hi".toList, none⟩ rfl rfl (by decide) rfl).2.2.2
    simpa using h⟩

/-- Claim C7 (createDocument precondition and effect): when the session
is not connected, `createDocument()` throws the not-connected error and
changes nothing; when connected, it installs a new active document with
content `""` and metadata `{created: now, version: 1}`, returns its
identifier, and emits `document-ready` carrying the snapshot, the
handle's identifier and `isNew: true`. -/
theorem createDocument_spec (st : SyncState) (now : Nat) (freshId : List Char) :
    (st.repo = false →
      createDocument st now freshId = (st, Except.error JsError.notConnected)) ∧
    (st.repo = true →
      (createDocument st now freshId).2 = Except.ok freshId ∧
      (createDocument st now freshId).1.handle =
        some { documentId := freshId
               doc := some { content := some []
                             metadata := some { created := now, version := 1 } }
               listeners := [st.nextHandlerId] } ∧
      (createDocument st now freshId).1.documentId = some freshId ∧
      (createDocument st now freshId).1.events =
        st.events ++ [SyncEvent.documentReady
          (some { content := some [], metadata := some { created := now, version := 1 } })
          freshId true]) := by
  constructor
  · intro h
    simp [createDocument, h]
  · intro h
    refine ⟨?_, ?_, ?_, ?_⟩ <;> simp [createDocument, setupChangeHandler, h]

/-- Witness for C7 at a disconnected and a connected concrete session. -/
theorem createDocument_spec_witness :
    (⟨false, none, none, false, none, 0, none, [], []⟩ : SyncState).repo = false ∧
    createDocument ⟨false, none, none, false, none, 0, none, [], []⟩ 42 "doc1".toList
      = (⟨false, none, none, false, none, 0, none, [], []⟩,
         Except.error JsError.notConnected) ∧
    (⟨true, none, none, true, none, 5, none, [], []⟩ : SyncState).repo = true ∧
    (createDocument ⟨true, none, none, true, none, 5, none, [], []⟩ 42 "doc1".toList).2
      = Except.ok "doc1".toList ∧
    (createDocument ⟨true, none, none, true, none, 5, none, [], []⟩ 42 "doc1".toList).1.handle
      = some ⟨"doc1".toList, some ⟨some [], some ⟨42, 1⟩⟩, [5]⟩ :=
  ⟨rfl, (createDocument_spec _ 42 _).1 rfl, rfl,
   ((createDocument_spec (⟨true, none, none, true, none, 5, none, [], []⟩ : SyncState)
      42 "doc1".toList).2 rfl).1,
   ((createDocument_spec (⟨true, none, none, true, none, 5, none, [], []⟩ : SyncState)
      42 "doc1".toList).2 rfl).2.1⟩

/-- Claim C10 (document-id scheme normalization): for an identifier not
carrying the `automerge:` scheme tag, `openDocument(id)` behaves
exactly like `openDocument('automerge:' + id)` — the prefix is prepended
precisely when absent before the identifier is resolved. -/
theorem openDocument_scheme (id : List Char)
    (hid : strStartsWith amScheme id = false)
    (st : SyncState) (resolve : List Char → Option DocHandle) :
    openDocument st resolve (amScheme ++ id) = openDocument st resolve id := by
  have hnorm : normalizeDocId (amScheme ++ id) = normalizeDocId id := by
    simp [normalizeDocId, strStartsWith_append, hid]
  simp only [openDocument, hnorm]

/-- Witness for C10 at `id = "abc"` on a concrete session. -/
theorem openDocument_scheme_witness :
    strStartsWith amScheme "abc".toList = false ∧
    openDocument ⟨true, none, none, true, none, 0, none, [], []⟩ (fun _ => none)
        (amScheme ++ "abc".toList)
      = openDocument ⟨true, none, none, true, none, 0, none, [], []⟩ (fun _ => none)
        "abc".toList :=
  ⟨by decide, openDocument_scheme "abc".toList (by decide) _ _⟩

end CollabEditor
